import Mathlib

set_option maxRecDepth 100000

/-!
Verification development for the ESP32 fingerprint-attendance firmware
(`sketch_jun1a000.ino`, basic variant A, and the extended variant B with
Base64 template logging).  The firmware's observable state and the
operations named by the specification are embedded shallowly: the SD-card
pending queue is a list of lines (lists of characters), the fingerprint
sensor's template store is a `Nat → Bool` map, the identity cache is a
`Nat → FingerprintData` map, and every network or hardware interaction is
an explicit oracle parameter (HTTP status codes, SD open/write success,
RTC readings).
-/

/-- A line of the SD-card log file, as a list of characters
(the firmware reads the file with `readStringUntil` on the newline). -/
abbrev Line := List Char

/-- The character class recognised by Arduino `String::trim` /  C `isspace`:
space, horizontal tab, newline, vertical tab, form feed, carriage return. -/
def isSpaceChar (c : Char) : Bool :=
  c = ' ' || c = Char.ofNat 9 || c = Char.ofNat 10 ||
  c = Char.ofNat 11 || c = Char.ofNat 12 || c = Char.ofNat 13

/-- Arduino `String::trim`: remove leading and trailing whitespace. -/
def trim (l : Line) : Line :=
  ((l.dropWhile isSpaceChar).reverse.dropWhile isSpaceChar).reverse

/-- Accumulate the leading decimal digits of a character list
(stopping at the first non-digit), as done by C `atol` / `strtoul`
after sign handling. -/
def parseDigits : Line → Nat → Nat
  | [], acc => acc
  | c :: cs, acc => if c.isDigit then parseDigits cs (acc * 10 + (c.toNat - 48)) else acc

/-- C `atol` semantics, used by Arduino `String::toInt`: skip whitespace,
optional sign, then a run of decimal digits (0 if no digits). -/
def toIntZ (l : Line) : Int :=
  let s := l.dropWhile isSpaceChar
  match s with
  | '-' :: rest => -(Int.ofNat (parseDigits rest 0))
  | '+' :: rest => Int.ofNat (parseDigits rest 0)
  | _ => Int.ofNat (parseDigits s 0)

/-- Conversion of a C integer value to `uint16_t` (the cast
`(uint16_t) line.substring(0, commaIndex).toInt()`). -/
def toUInt16Nat (z : Int) : Nat := (z % 65536).toNat

/-- Conversion of a C integer value to a 32-bit unsigned value
(`strtoul` result stored in a 32-bit `time_t`/`unsigned long`). -/
def toUInt32Nat (z : Int) : Nat := (z % 4294967296).toNat

/-- `strtoul(s, NULL, 10)`: whitespace, optional sign, digits,
wrapped to 32 bits. -/
def strtoul10 (l : Line) : Nat := toUInt32Nat (toIntZ l)

/-- Point update of a total map, the effect of `array[i] = v` on an
array-backed store. -/
def upd {α : Type} (f : Nat → α) (i : Nat) (v : α) : Nat → α :=
  fun j => if j = i then v else f j

/-- `HTTP_CODE_OK` from `HTTPClient.h`. -/
def HTTP_CODE_OK : Nat := 200

/-- `HTTP_CODE_CREATED` from `HTTPClient.h`. -/
def HTTP_CODE_CREATED : Nat := 201

/-- `FINGERPRINT_OK` from `Adafruit_Fingerprint.h`. -/
def FINGERPRINT_OK : Nat := 0

/-- Decimal rendering of an unsigned value, as `printf("%u")`/`printf("%lu")`
write it into the SD log line. -/
def natDigits (n : Nat) : List Char := Nat.toDigits 10 n

/-- Entry of the in-memory identity cache `fingerprintCache[128]`
(`struct FingerprintData { uint16_t id; String name; }`). -/
structure FingerprintData where
  id : Nat
  name : String
deriving DecidableEq, Repr

/-- The identity cache `fingerprintCache`, indexed by identifier. -/
abbrev Cache := Nat → FingerprintData

/-- The cleared cache entry `{0, ""}`. -/
def emptyEntry : FingerprintData := ⟨0, ""⟩

/-- A cache with every entry cleared. -/
def emptyCache : Cache := fun _ => emptyEntry

/-!  ## The offline-log drain loop (`syncOfflineLogs`)

Both variants run the same loop over the queue file: read a line, trim
it, skip it when empty, skip it when it does not parse (missing comma
separators), otherwise attempt the transmission; an acknowledged record
is not written to the fresh queue file, a failed one is.  The loop is
embedded once, parameterised by the variant's line parser and by the
transmission outcome. -/

/-- Result of one drain pass: the lines written to the fresh queue file
(in write order), the records for which a transmission was attempted
(in attempt order), and the two counters reported on the display. -/
structure DrainOut (R : Type) where
  kept : List Line
  attempts : List R
  synced : Nat
  failed : Nat
deriving Repr

/-- The per-line loop body of `syncOfflineLogs`, shared by both variants:
trim, skip empty, skip malformed, transmit, keep on failure. -/
def drainQueue {R : Type} (parse : Line → Option R) (send : R → Bool) :
    List Line → DrainOut R
  | [] => ⟨[], [], 0, 0⟩
  | raw :: rest =>
    let line := trim raw
    if line.isEmpty then drainQueue parse send rest
    else
      match parse line with
      | none => drainQueue parse send rest
      | some r =>
        let out := drainQueue parse send rest
        if send r then ⟨out.kept, r :: out.attempts, out.synced + 1, out.failed⟩
        else ⟨line :: out.kept, r :: out.attempts, out.synced, out.failed + 1⟩

/-- A trimmed line survives the drain pass exactly when it parses and its
transmission fails. -/
def keptLine {R : Type} (parse : Line → Option R) (send : R → Bool) (l : Line) : Bool :=
  match parse l with
  | none => false
  | some r => !send r

theorem drainQueue_kept_eq {R : Type} (parse : Line → Option R) (send : R → Bool)
    (q : List Line) :
    (drainQueue parse send q).kept
      = (q.map trim).filter (fun l => !l.isEmpty && keptLine parse send l) := by
  induction q with
  | nil => rfl
  | cons raw rest ih =>
    simp only [drainQueue, List.map_cons, List.filter_cons]
    by_cases he : (trim raw).isEmpty
    · simp [he, ih]
    · simp only [he, Bool.not_false, Bool.true_and, if_false, Bool.false_eq_true]
      cases hp : parse (trim raw) with
      | none => simp [keptLine, hp, ih]
      | some r =>
        by_cases hs : send r
        · simp [keptLine, hp, hs, ih]
        · simp [keptLine, hp, hs, ih]

theorem drainQueue_attempts_eq {R : Type} (parse : Line → Option R) (send : R → Bool)
    (q : List Line) :
    (drainQueue parse send q).attempts
      = (q.map trim).filterMap (fun l => if l.isEmpty then none else parse l) := by
  induction q with
  | nil => rfl
  | cons raw rest ih =>
    simp only [drainQueue, List.map_cons, List.filterMap_cons]
    by_cases he : (trim raw).isEmpty
    · simp [he, ih]
    · simp only [he, if_false, Bool.false_eq_true]
      cases hp : parse (trim raw) with
      | none => simp [hp, ih]
      | some r =>
        by_cases hs : send r
        · simp [hp, hs, ih]
        · simp [hp, hs, ih]

/-! ## Variant A (`sketch_jun1a000.ino`): queue lines are `id,timestamp` -/

namespace VarA

/-- The line parser inside variant A's `syncOfflineLogs`: a line is
well-formed when it contains a comma; `id` is the `uint16_t` cast of
`toInt` of the part before the comma, the timestamp is `strtoul` of the
part after it. -/
def parseRecord (line : Line) : Option (Nat × Nat) :=
  match line.findIdx? (· = ',') with
  | none => none
  | some i => some (toUInt16Nat (toIntZ (line.take i)), strtoul10 (line.drop (i + 1)))

/-- `logAttendanceToServer(id, timestamp)`: posts the record, succeeds
exactly when the server's HTTP status is 200 or 201; returns `false`
without posting when WiFi is down.  `post` is the oracle giving the
server's status code for a given record. -/
def logAttendanceToServer (wifi : Bool) (post : Nat → Nat → Nat) (id ts : Nat) : Bool :=
  if !wifi then false
  else
    let code := post id ts
    code = HTTP_CODE_OK || code = HTTP_CODE_CREATED

/-- `syncOfflineLogs()`: exits untouched when WiFi is down or the
temporary queue file cannot be created; otherwise runs the drain loop
and the fresh queue file replaces the old one. -/
def syncOfflineLogs (wifi tempOk : Bool) (post : Nat → Nat → Nat)
    (queue : List Line) : DrainOut (Nat × Nat) :=
  if !wifi then ⟨queue, [], 0, 0⟩
  else if !tempOk then ⟨queue, [], 0, 0⟩
  else drainQueue parseRecord (fun r => logAttendanceToServer wifi post r.1 r.2) queue

/-- The line `printf("%u,%lu\n", id, timestamp)` appends to the log file. -/
def formatLine (id ts : Nat) : Line := natDigits id ++ ',' :: natDigits ts

end VarA

/-! ## Variant B (`part_000`): queue lines are `id,base64template,timestamp` -/

namespace VarB

/-- The line parser inside variant B's `syncOfflineLogs`: a line is
well-formed when it has at least two commas (`firstComma`, `lastComma`
distinct); `id` before the first comma, the Base64 template between the
two, the timestamp after the last. -/
def parseRecord (line : Line) : Option (Nat × Line × Nat) :=
  match line.findIdx? (· = ','), (line.reverse.findIdx? (· = ',')).map
      (fun k => line.length - 1 - k) with
  | some i, some j =>
    if i = j then none
    else some (toUInt16Nat (toIntZ (line.take i)),
               ((line.drop (i + 1)).take (j - (i + 1)),
                strtoul10 (line.drop (j + 1))))
  | _, _ => none

/-- `logAttendanceToServer(id, base64Template, timestamp)`: same
acknowledgment discipline as variant A, with the template in the JSON
body. -/
def logAttendanceToServer (wifi : Bool) (post : Nat → Line → Nat → Nat)
    (id : Nat) (tmpl : Line) (ts : Nat) : Bool :=
  if !wifi then false
  else
    let code := post id tmpl ts
    code = HTTP_CODE_OK || code = HTTP_CODE_CREATED

/-- Variant B's `syncOfflineLogs()`. -/
def syncOfflineLogs (wifi tempOk : Bool) (post : Nat → Line → Nat → Nat)
    (queue : List Line) : DrainOut (Nat × Line × Nat) :=
  if !wifi then ⟨queue, [], 0, 0⟩
  else if !tempOk then ⟨queue, [], 0, 0⟩
  else drainQueue parseRecord
    (fun r => logAttendanceToServer wifi post r.1 r.2.1 r.2.2) queue

/-- The line `printf("%u,%s,%lu\n", id, base64Template.c_str(), timestamp)`
appends to the log file. -/
def formatLine (id : Nat) (tmpl : Line) (ts : Nat) : Line :=
  natDigits id ++ ',' :: (tmpl ++ ',' :: natDigits ts)

end VarB

/-! ## Lemmas about the drain loop -/

theorem parseRecordA_nil : VarA.parseRecord [] = none := rfl

theorem parseRecordB_nil : VarB.parseRecord [] = none := rfl

theorem drain_not_mem_kept_of_malformed {R : Type} (parse : Line → Option R)
    (send : R → Bool) (q : List Line) (l : Line) (hp : parse l = none) :
    l ∉ (drainQueue parse send q).kept := by
  rw [drainQueue_kept_eq]
  intro hmem
  have h := (List.mem_filter.mp hmem).2
  simp [keptLine, hp] at h

theorem drain_mem_kept_iff {R : Type} (parse : Line → Option R) (send : R → Bool)
    (q : List Line) (raw : Line) (hmem : raw ∈ q) (r : R)
    (hp : parse (trim raw) = some r) (hnil : parse [] = none) :
    (trim raw ∉ (drainQueue parse send q).kept ↔ send r = true) := by
  rw [drainQueue_kept_eq]
  have hne : (trim raw).isEmpty = false := by
    cases htr : trim raw with
    | nil => rw [htr] at hp; rw [hnil] at hp; cases hp
    | cons c cs => rfl
  have hmem2 : trim raw ∈ q.map trim := List.mem_map_of_mem trim hmem
  constructor
  · intro hout
    by_contra hsend
    apply hout
    refine List.mem_filter.mpr ⟨hmem2, ?_⟩
    simp [hne, keptLine, hp, Bool.eq_false_iff.mpr hsend]
  · intro hsend hin
    have h := (List.mem_filter.mp hin).2
    simp [hne, keptLine, hp, hsend] at h

theorem drain_attempts_filterMap {R : Type} (parse : Line → Option R) (send : R → Bool)
    (q : List Line) (hnil : parse [] = none) :
    (drainQueue parse send q).attempts = (q.map trim).filterMap parse := by
  rw [drainQueue_attempts_eq]
  congr 1
  funext l
  cases l with
  | nil => simpa using hnil.symm
  | cons c cs => rfl

/-- The conjunction of drain-pass facts stated by claim C1, for both
variants, at a fixed record-posting oracle and queue content. -/
def C1Prop (postA : Nat → Nat → Nat) (postB : Nat → Line → Nat → Nat)
    (queue : List Line) (raw : Line) : Prop :=
  (∀ id ts, VarA.parseRecord (trim raw) = some (id, ts) →
     (trim raw ∉ (VarA.syncOfflineLogs true true postA queue).kept
       ↔ (postA id ts = HTTP_CODE_OK ∨ postA id ts = HTTP_CODE_CREATED)))
  ∧ (VarA.parseRecord (trim raw) = none →
      trim raw ∉ (VarA.syncOfflineLogs true true postA queue).kept)
  ∧ ((VarA.syncOfflineLogs true true postA queue).attempts
      = (queue.map trim).filterMap VarA.parseRecord)
  ∧ (∀ id tmpl ts, VarB.parseRecord (trim raw) = some (id, tmpl, ts) →
     (trim raw ∉ (VarB.syncOfflineLogs true true postB queue).kept
       ↔ (postB id tmpl ts = HTTP_CODE_OK ∨ postB id tmpl ts = HTTP_CODE_CREATED)))
  ∧ (VarB.parseRecord (trim raw) = none →
      trim raw ∉ (VarB.syncOfflineLogs true true postB queue).kept)
  ∧ ((VarB.syncOfflineLogs true true postB queue).attempts
      = (queue.map trim).filterMap VarB.parseRecord)

/-- C1: during a drain pass (`syncOfflineLogs`, WiFi up, temp file
creatable), a well-formed queue record is removed from the queue if and
only if its transmission returned HTTP 200 or 201; a failed record is
written back to the new queue file, never dropped; a malformed line
(missing its comma separator(s)) is dropped with no transmission
attempted for it (the attempted records are exactly the parses of the
well-formed lines).  Proved for both firmware variants. -/
theorem C1_queue_removal_iff_server_ack
    (postA : Nat → Nat → Nat) (postB : Nat → Line → Nat → Nat)
    (queue : List Line) (raw : Line) (hmem : raw ∈ queue) :
    C1Prop postA postB queue raw := by
  refine ⟨?_, ?_, ?_, ?_, ?_, ?_⟩
  · intro id ts hp
    have h := drain_mem_kept_iff VarA.parseRecord
      (fun r => VarA.logAttendanceToServer true postA r.1 r.2)
      queue raw hmem (id, ts) hp parseRecordA_nil
    simpa [VarA.syncOfflineLogs, VarA.logAttendanceToServer] using h
  · intro hp
    have h := drain_not_mem_kept_of_malformed VarA.parseRecord
      (fun r => VarA.logAttendanceToServer true postA r.1 r.2) queue (trim raw) hp
    simpa [VarA.syncOfflineLogs] using h
  · have h := drain_attempts_filterMap VarA.parseRecord
      (fun r => VarA.logAttendanceToServer true postA r.1 r.2) queue parseRecordA_nil
    simpa [VarA.syncOfflineLogs] using h
  · intro id tmpl ts hp
    have h := drain_mem_kept_iff VarB.parseRecord
      (fun r => VarB.logAttendanceToServer true postB r.1 r.2.1 r.2.2)
      queue raw hmem (id, tmpl, ts) hp parseRecordB_nil
    simpa [VarB.syncOfflineLogs, VarB.logAttendanceToServer] using h
  · intro hp
    have h := drain_not_mem_kept_of_malformed VarB.parseRecord
      (fun r => VarB.logAttendanceToServer true postB r.1 r.2.1 r.2.2) queue (trim raw) hp
    simpa [VarB.syncOfflineLogs] using h
  · have h := drain_attempts_filterMap VarB.parseRecord
      (fun r => VarB.logAttendanceToServer true postB r.1 r.2.1 r.2.2) queue parseRecordB_nil
    simpa [VarB.syncOfflineLogs] using h

/-- Witness for C1 at a concrete queue: the single well-formed line
`5,7` with a server that acknowledges everything with HTTP 200. -/
theorem C1_queue_removal_iff_server_ack_witness :
    (['5', ',', '7'] : Line) ∈ [(['5', ',', '7'] : Line)]
    ∧ C1Prop (fun _ _ => 200) (fun _ _ _ => 500)
        [(['5', ',', '7'] : Line)] ['5', ',', '7'] :=
  ⟨List.mem_singleton.mpr rfl,
   C1_queue_removal_iff_server_ack (fun _ _ => 200) (fun _ _ _ => 500)
     [['5', ',', '7']] ['5', ',', '7'] (List.mem_singleton.mpr rfl)⟩

/-- C2: after one drain pass, the queue file holds exactly the
still-failing well-formed records (the subset F), as a filter of the
original line sequence — hence in their original relative order — and
the records are attempted in exactly that original order (`filterMap`
of the line sequence), so no later record is attempted before an
earlier one.  Proved for both firmware variants. -/
theorem C2_drain_keeps_exactly_failures_in_order
    (postA : Nat → Nat → Nat) (postB : Nat → Line → Nat → Nat) (queue : List Line) :
    ((VarA.syncOfflineLogs true true postA queue).kept
      = (queue.map trim).filter (fun l =>
          match VarA.parseRecord l with
          | none => false
          | some r => !(decide (postA r.1 r.2 = HTTP_CODE_OK)
                        || decide (postA r.1 r.2 = HTTP_CODE_CREATED))))
    ∧ ((VarA.syncOfflineLogs true true postA queue).attempts
        = (queue.map trim).filterMap VarA.parseRecord)
    ∧ ((VarB.syncOfflineLogs true true postB queue).kept
      = (queue.map trim).filter (fun l =>
          match VarB.parseRecord l with
          | none => false
          | some r => !(decide (postB r.1 r.2.1 r.2.2 = HTTP_CODE_OK)
                        || decide (postB r.1 r.2.1 r.2.2 = HTTP_CODE_CREATED))))
    ∧ ((VarB.syncOfflineLogs true true postB queue).attempts
        = (queue.map trim).filterMap VarB.parseRecord) := by
  refine ⟨?_, ?_, ?_, ?_⟩
  · show (VarA.syncOfflineLogs true true postA queue).kept = _
    have h := drainQueue_kept_eq VarA.parseRecord
      (fun r => VarA.logAttendanceToServer true postA r.1 r.2) queue
    simp only [VarA.syncOfflineLogs, Bool.not_true, if_false, Bool.false_eq_true] at h ⊢
    rw [h]
    apply List.filter_congr
    intro l _
    cases l with
    | nil => simp [keptLine, parseRecordA_nil]
    | cons c cs =>
      simp only [List.isEmpty_cons, Bool.not_false, Bool.true_and, keptLine]
      cases hp : VarA.parseRecord (c :: cs) with
      | none => rfl
      | some r => simp [VarA.logAttendanceToServer]
  · have h := drain_attempts_filterMap VarA.parseRecord
      (fun r => VarA.logAttendanceToServer true postA r.1 r.2) queue parseRecordA_nil
    simpa [VarA.syncOfflineLogs] using h
  · show (VarB.syncOfflineLogs true true postB queue).kept = _
    have h := drainQueue_kept_eq VarB.parseRecord
      (fun r => VarB.logAttendanceToServer true postB r.1 r.2.1 r.2.2) queue
    simp only [VarB.syncOfflineLogs, Bool.not_true, if_false, Bool.false_eq_true] at h ⊢
    rw [h]
    apply List.filter_congr
    intro l _
    cases l with
    | nil => simp [keptLine, parseRecordB_nil]
    | cons c cs =>
      simp only [List.isEmpty_cons, Bool.not_false, Bool.true_and, keptLine]
      cases hp : VarB.parseRecord (c :: cs) with
      | none => rfl
      | some r => simp [VarB.logAttendanceToServer]
  · have h := drain_attempts_filterMap VarB.parseRecord
      (fun r => VarB.logAttendanceToServer true postB r.1 r.2.1 r.2.2) queue parseRecordB_nil
    simpa [VarB.syncOfflineLogs] using h

/-! ## Attendance recording (`recordAttendance`, `logAttendanceOffline`)

The RTC (an external module, treated by the design as
`now() -> UnixTimestamp | Unavailable`) is embedded as a reading that
carries the `DateTime::isValid()` verdict together with the
`unixtime()` value. -/

/-- One reading of `rtc.now()`: the validity verdict and the Unix time. -/
structure RtcReading where
  valid : Bool
  unixtime : Nat
deriving Repr

namespace VarA

/-- Outcome of one attendance event in variant A: the final queue-file
content, the records posted to the server, and the display messages. -/
structure AttendOut where
  queue : List Line
  posted : List (Nat × Nat)
  display : List (String × String)
deriving Repr

/-- `logAttendanceOffline(id, timestamp)`: append `id,timestamp` to the
SD log file; on open failure or write failure show `SD Write Error` and
leave the file as it was. -/
def logAttendanceOffline (sdOpenOk sdWriteOk : Bool) (queue : List Line)
    (id ts : Nat) : List Line × List (String × String) :=
  if !sdOpenOk then (queue, [("SD Write Error", "")])
  else if sdWriteOk then (queue ++ [formatLine id ts], [("Log Saved", "Offline")])
  else (queue, [("SD Write Error", "")])

/-- `recordAttendance(id)`: refuse with `Time not set` when the RTC
reading is invalid; otherwise take the reading's Unix time, try the
server when WiFi is up, and fall back to the SD log on failure or when
offline. -/
def recordAttendance (wifi : Bool) (rtc : RtcReading) (post : Nat → Nat → Nat)
    (sdOpenOk sdWriteOk : Bool) (queue : List Line) (id : Nat) : AttendOut :=
  if !rtc.valid then
    ⟨queue, [], [("Log Failed", "Time not set")]⟩
  else
    let now := rtc.unixtime
    if wifi then
      if logAttendanceToServer wifi post id now then
        ⟨queue, [(id, now)], [("Log Sent", "To server")]⟩
      else
        let off := logAttendanceOffline sdOpenOk sdWriteOk queue id now
        ⟨off.1, [(id, now)], ("Server Error", "Logging offline") :: off.2⟩
    else
      let off := logAttendanceOffline sdOpenOk sdWriteOk queue id now
      ⟨off.1, [], off.2⟩

end VarA

namespace VarB

/-- Outcome of one attendance event in variant B (records carry the
Base64 template). -/
structure AttendOut where
  queue : List Line
  posted : List (Nat × Line × Nat)
  display : List (String × String)
deriving Repr

/-- `logAttendanceOffline(id, base64Template, timestamp)`: append
`id,template,timestamp` to the SD log file; on open failure or write
failure show `SD Write Error` and leave the file as it was. -/
def logAttendanceOffline (sdOpenOk sdWriteOk : Bool) (queue : List Line)
    (id : Nat) (tmpl : Line) (ts : Nat) : List Line × List (String × String) :=
  if !sdOpenOk then (queue, [("SD Write Error", "")])
  else if sdWriteOk then (queue ++ [formatLine id tmpl ts], [("Log Saved", "Offline")])
  else (queue, [("SD Write Error", "")])

/-- Variant B's `recordAttendance(id, base64Template)`. -/
def recordAttendance (wifi : Bool) (rtc : RtcReading) (post : Nat → Line → Nat → Nat)
    (sdOpenOk sdWriteOk : Bool) (queue : List Line) (id : Nat) (tmpl : Line) : AttendOut :=
  if !rtc.valid then
    ⟨queue, [], [("Log Failed", "Time not set")]⟩
  else
    let now := rtc.unixtime
    if wifi then
      if logAttendanceToServer wifi post id tmpl now then
        ⟨queue, [(id, tmpl, now)], [("Log Sent", "To server")]⟩
      else
        let off := logAttendanceOffline sdOpenOk sdWriteOk queue id tmpl now
        ⟨off.1, [(id, tmpl, now)], ("Server Error", "Logging offline") :: off.2⟩
    else
      let off := logAttendanceOffline sdOpenOk sdWriteOk queue id tmpl now
      ⟨off.1, [], off.2⟩

/-- The part of `scanForFingerprint` that runs after a successful
biometric match at identifier `id`: retrieve the stored template as
Base64 (`tmpl` is the retrieval result, empty on failure) and either
record the attendance or show `Template Error`. -/
def scanProcessMatch (wifi : Bool) (rtc : RtcReading) (post : Nat → Line → Nat → Nat)
    (sdOpenOk sdWriteOk : Bool) (queue : List Line) (id : Nat) (tmpl : Line) : AttendOut :=
  if !tmpl.isEmpty then
    recordAttendance wifi rtc post sdOpenOk sdWriteOk queue id tmpl
  else
    ⟨queue, [], [("Log Failed", "Template Error")]⟩

end VarB

/-- The conjunction of facts stated by claim C3: an invalid RTC reading
discards the event with `Time not set` and nothing else; every record
posted or appended to the queue carries the RTC reading's Unix time,
which is at least the clock-source lower bound `T`. -/
def C3Prop (wifi : Bool) (rtc : RtcReading) (postA : Nat → Nat → Nat)
    (postB : Nat → Line → Nat → Nat) (sdOpenOk sdWriteOk : Bool)
    (queue : List Line) (id : Nat) (tmpl : Line) (T : Nat) : Prop :=
  (rtc.valid = false →
      VarA.recordAttendance wifi rtc postA sdOpenOk sdWriteOk queue id
        = ⟨queue, [], [("Log Failed", "Time not set")]⟩
    ∧ VarB.recordAttendance wifi rtc postB sdOpenOk sdWriteOk queue id tmpl
        = ⟨queue, [], [("Log Failed", "Time not set")]⟩)
  ∧ (∀ p ∈ (VarA.recordAttendance wifi rtc postA sdOpenOk sdWriteOk queue id).posted,
       T ≤ p.2)
  ∧ (∀ l ∈ (VarA.recordAttendance wifi rtc postA sdOpenOk sdWriteOk queue id).queue,
       l ∈ queue ∨ (l = VarA.formatLine id rtc.unixtime ∧ T ≤ rtc.unixtime))
  ∧ (∀ p ∈ (VarB.recordAttendance wifi rtc postB sdOpenOk sdWriteOk queue id tmpl).posted,
       T ≤ p.2.2)
  ∧ (∀ l ∈ (VarB.recordAttendance wifi rtc postB sdOpenOk sdWriteOk queue id tmpl).queue,
       l ∈ queue ∨ (l = VarB.formatLine id tmpl rtc.unixtime ∧ T ≤ rtc.unixtime))

/-- C3: `recordAttendance` never stores or transmits a record with a
zero or implausibly small timestamp: under the RTC contract that a
valid reading's Unix time is at least `T`, an invalid reading makes the
event be discarded with a `Time not set` failure and no record, and
every record that is posted or queued carries the valid reading's time
(hence is at least `T`).  Proved for both firmware variants. -/
theorem C3_no_bogus_timestamp (wifi : Bool) (rtc : RtcReading)
    (postA : Nat → Nat → Nat) (postB : Nat → Line → Nat → Nat)
    (sdOpenOk sdWriteOk : Bool) (queue : List Line) (id : Nat) (tmpl : Line)
    (T : Nat) (hT : rtc.valid = true → T ≤ rtc.unixtime) :
    C3Prop wifi rtc postA postB sdOpenOk sdWriteOk queue id tmpl T := by
  unfold C3Prop
  cases hv : rtc.valid with
  | false =>
    refine ⟨fun _ => ⟨?_, ?_⟩, ?_, ?_, ?_, ?_⟩
    · simp [VarA.recordAttendance, hv]
    · simp [VarB.recordAttendance, hv]
    · simp [VarA.recordAttendance, hv]
    · intro l hl
      simp only [VarA.recordAttendance, hv, Bool.not_false, if_true] at hl
      exact Or.inl hl
    · simp [VarB.recordAttendance, hv]
    · intro l hl
      simp only [VarB.recordAttendance, hv, Bool.not_false, if_true] at hl
      exact Or.inl hl
  | true =>
    have hT2 := hT hv
    refine ⟨fun h => absurd h (by simp [hv]), ?_, ?_, ?_, ?_⟩
    · intro p hp
      simp only [VarA.recordAttendance, hv, Bool.not_true, Bool.false_eq_true,
        if_false] at hp
      split_ifs at hp <;> simp at hp <;> simp [hp, hT2]
    · intro l hl
      simp only [VarA.recordAttendance, VarA.logAttendanceOffline, hv, Bool.not_true,
        Bool.false_eq_true, if_false] at hl
      split_ifs at hl <;>
        simp only [List.mem_append, List.mem_singleton] at hl <;> tauto
    · intro p hp
      simp only [VarB.recordAttendance, hv, Bool.not_true, Bool.false_eq_true,
        if_false] at hp
      split_ifs at hp <;> simp at hp <;> simp [hp, hT2]
    · intro l hl
      simp only [VarB.recordAttendance, VarB.logAttendanceOffline, hv, Bool.not_true,
        Bool.false_eq_true, if_false] at hl
      split_ifs at hl <;>
        simp only [List.mem_append, List.mem_singleton] at hl <;> tauto

/-- Witness for C3: a valid RTC reading at Unix time 946684800 (the RTC
module's earliest representable instant), bound `T = 1`. -/
theorem C3_no_bogus_timestamp_witness :
    ((RtcReading.mk true 946684800).valid = true → 1 ≤ (RtcReading.mk true 946684800).unixtime)
    ∧ C3Prop true ⟨true, 946684800⟩ (fun _ _ => 200) (fun _ _ _ => 500)
        true true [] 5 ['A'] 1 :=
  ⟨fun _ => by norm_num,
   C3_no_bogus_timestamp true ⟨true, 946684800⟩ (fun _ _ => 200) (fun _ _ _ => 500)
     true true [] 5 ['A'] 1 (fun _ => by norm_num)⟩

/-- The conjunction of facts stated by claim C9: when the SD log file
cannot be opened or the write fails, `logAttendanceOffline` leaves the
log file unchanged (the record is not persisted) and shows
`SD Write Error`. -/
def C9Prop (sdOpenOk sdWriteOk : Bool) (queue : List Line) (id ts : Nat)
    (tmpl : Line) : Prop :=
  (VarA.logAttendanceOffline sdOpenOk sdWriteOk queue id ts).1 = queue
  ∧ ("SD Write Error", "") ∈ (VarA.logAttendanceOffline sdOpenOk sdWriteOk queue id ts).2
  ∧ (VarB.logAttendanceOffline sdOpenOk sdWriteOk queue id tmpl ts).1 = queue
  ∧ ("SD Write Error", "") ∈ (VarB.logAttendanceOffline sdOpenOk sdWriteOk queue id tmpl ts).2

/-- C9: if the SD log file cannot be opened, or the append fails, the
attendance record is not persisted anywhere — the queue file is
unchanged — and `SD Write Error` is shown; the event is lost.  Proved
for both firmware variants. -/
theorem C9_sd_failure_loses_event (sdOpenOk sdWriteOk : Bool) (queue : List Line)
    (id ts : Nat) (tmpl : Line)
    (h : sdOpenOk = false ∨ sdWriteOk = false) :
    C9Prop sdOpenOk sdWriteOk queue id ts tmpl := by
  unfold C9Prop
  rcases h with h | h
  · subst h
    simp [VarA.logAttendanceOffline, VarB.logAttendanceOffline]
  · subst h
    cases sdOpenOk <;>
      simp [VarA.logAttendanceOffline, VarB.logAttendanceOffline]

/-- Witness for C9: the SD file fails to open. -/
theorem C9_sd_failure_loses_event_witness :
    ((false : Bool) = false ∨ (true : Bool) = false)
    ∧ C9Prop false true [['1', ',', '2']] 3 4 ['B'] :=
  ⟨Or.inl rfl,
   C9_sd_failure_loses_event false true [['1', ',', '2']] 3 4 ['B'] (Or.inl rfl)⟩

/-- C10: in the extended variant, when the Base64 template retrieval
after a successful match returns the empty string, the attendance event
is not recorded at all — nothing is posted to the server and the
offline queue is unchanged — and only the `Template Error` message is
shown. -/
theorem C10_empty_template_drops_event (wifi : Bool) (rtc : RtcReading)
    (post : Nat → Line → Nat → Nat) (sdOpenOk sdWriteOk : Bool)
    (queue : List Line) (id : Nat) :
    (VarB.scanProcessMatch wifi rtc post sdOpenOk sdWriteOk queue id []).queue = queue
    ∧ (VarB.scanProcessMatch wifi rtc post sdOpenOk sdWriteOk queue id []).posted = []
    ∧ (VarB.scanProcessMatch wifi rtc post sdOpenOk sdWriteOk queue id []).display
        = [("Log Failed", "Template Error")] := by
  refine ⟨rfl, rfl, rfl⟩

/-! ## Enrollment (`enrollNewFingerprint`, `getNextAvailableIDFromServer`)

The same function appears in both variants (variant B only adds a
lift-finger wait between the two captures, with no effect on state).
The sensor's template store is a `Nat → Bool` map; `storeModel` inserts
at the identifier, `deleteModel` removes. -/

/-- The environment of one enrollment attempt: WiFi status, the HTTP
status and body of the `generate-id` call, the result codes of the
sensor steps, the HTTP status of the registration POST, and the name
read from the serial channel. -/
structure EnrollEnv where
  wifi : Bool
  genIdCode : Nat
  genIdBody : Line
  capture1 : Nat
  capture2 : Nat
  createModelRes : Nat
  storeModelRes : Nat
  registerCode : Nat
  name : String

/-- `getNextAvailableIDFromServer()`: `-1` when offline or on any HTTP
status other than 200, else `toInt` of the response body. -/
def getNextAvailableIDFromServer (wifi : Bool) (code : Nat) (body : Line) : Int :=
  if !wifi then -1
  else if code = HTTP_CODE_OK then toIntZ body
  else -1

/-- The identifier the server hands to one enrollment attempt. -/
def enrollServerId (env : EnrollEnv) : Int :=
  getNextAvailableIDFromServer env.wifi env.genIdCode env.genIdBody

/-- `sendFingerprintToServer(id, name)`: true exactly on HTTP 200 or
201, false without posting when offline. -/
def sendFingerprintToServer (wifi : Bool) (code : Nat) : Bool :=
  if !wifi then false
  else code = HTTP_CODE_OK || code = HTTP_CODE_CREATED

/-- Outcome of one enrollment attempt: the sensor template store, the
identity cache, and whether any fingerprint capture was attempted. -/
structure EnrollOut where
  sensor : Nat → Bool
  cache : Cache
  captureAttempted : Bool

/-- `enrollNewFingerprint()`: needs WiFi; asks the server for the
identifier and aborts unless it lies in [0, 128); captures two images,
merges and stores the model on the sensor; reads a name; registers
{id, name} with the server — on success the cache entry is set, on
failure the just-stored template is deleted from the sensor. -/
def enrollNewFingerprint (env : EnrollEnv) (sensor : Nat → Bool) (cache : Cache) :
    EnrollOut :=
  if !env.wifi then ⟨sensor, cache, false⟩
  else if enrollServerId env < 0 ∨ 128 ≤ enrollServerId env then ⟨sensor, cache, false⟩
  else if env.capture1 ≠ FINGERPRINT_OK then ⟨sensor, cache, true⟩
  else if env.capture2 ≠ FINGERPRINT_OK then ⟨sensor, cache, true⟩
  else if env.createModelRes ≠ FINGERPRINT_OK then ⟨sensor, cache, true⟩
  else if env.storeModelRes ≠ FINGERPRINT_OK then ⟨sensor, cache, true⟩
  else if sendFingerprintToServer env.wifi env.registerCode then
    ⟨upd sensor (enrollServerId env).toNat true,
     upd cache (enrollServerId env).toNat ⟨(enrollServerId env).toNat, env.name⟩, true⟩
  else
    ⟨upd (upd sensor (enrollServerId env).toNat true) (enrollServerId env).toNat false,
     cache, true⟩

/-- The conjunction of facts stated by claim C4: when registration
fails after the template was stored, the stored template is rolled back
— the server-assigned identifier is absent from the sensor afterwards —
and no other sensor slot or cache entry changed. -/
def C4Prop (env : EnrollEnv) (sensor : Nat → Bool) (cache : Cache) : Prop :=
  (enrollNewFingerprint env sensor cache).sensor (enrollServerId env).toNat = false
  ∧ (∀ j, j ≠ (enrollServerId env).toNat →
      (enrollNewFingerprint env sensor cache).sensor j = sensor j)
  ∧ (enrollNewFingerprint env sensor cache).cache = cache

/-- C4: if the sensor stored the new template at the server-assigned
identifier X and the subsequent server registration fails (status other
than 200/201), the compensating `deleteModel(X)` leaves X absent from
the sensor after the enrollment attempt. -/
theorem C4_enrollment_rollback (env : EnrollEnv) (sensor : Nat → Bool) (cache : Cache)
    (hwifi : env.wifi = true)
    (hid : ¬(enrollServerId env < 0 ∨ 128 ≤ enrollServerId env))
    (hc1 : env.capture1 = FINGERPRINT_OK) (hc2 : env.capture2 = FINGERPRINT_OK)
    (hcm : env.createModelRes = FINGERPRINT_OK) (hsm : env.storeModelRes = FINGERPRINT_OK)
    (hreg : env.registerCode ≠ HTTP_CODE_OK ∧ env.registerCode ≠ HTTP_CODE_CREATED) :
    C4Prop env sensor cache := by
  unfold C4Prop enrollNewFingerprint
  rw [hwifi]
  simp only [Bool.not_true, Bool.false_eq_true, if_false]
  rw [if_neg hid, if_neg (by simp [hc1]), if_neg (by simp [hc2]),
    if_neg (by simp [hcm]), if_neg (by simp [hsm]),
    if_neg (by simp [sendFingerprintToServer, hwifi, hreg.1, hreg.2])]
  refine ⟨by simp [upd], fun j hj => by simp [upd, hj], rfl⟩

/-- Witness for C4: server hands out identifier 7, all sensor steps
succeed, registration returns HTTP 500. -/
theorem C4_enrollment_rollback_witness :
    (EnrollEnv.mk true 200 ['7'] 0 0 0 0 500 "x").wifi = true
    ∧ ¬(enrollServerId (EnrollEnv.mk true 200 ['7'] 0 0 0 0 500 "x") < 0
        ∨ 128 ≤ enrollServerId (EnrollEnv.mk true 200 ['7'] 0 0 0 0 500 "x"))
    ∧ C4Prop (EnrollEnv.mk true 200 ['7'] 0 0 0 0 500 "x")
        (fun _ => false) emptyCache :=
  ⟨rfl, by decide,
   C4_enrollment_rollback (EnrollEnv.mk true 200 ['7'] 0 0 0 0 500 "x")
     (fun _ => false) emptyCache rfl (by decide) rfl rfl rfl rfl (by decide)⟩

/-- The conjunction of facts stated by claim C7: when the device is
offline, or the `generate-id` call fails, or the returned value lies
outside [0, 128), the enrollment aborts before any capture with sensor
and cache unchanged; and any identifier the enrollment adds to the
sensor is exactly the server-provided value. -/
def C7Prop (env : EnrollEnv) (sensor : Nat → Bool) (cache : Cache) : Prop :=
  ((env.wifi = false ∨ enrollServerId env < 0 ∨ 128 ≤ enrollServerId env) →
      (enrollNewFingerprint env sensor cache).sensor = sensor
      ∧ (enrollNewFingerprint env sensor cache).cache = cache
      ∧ (enrollNewFingerprint env sensor cache).captureAttempted = false)
  ∧ (∀ i, (enrollNewFingerprint env sensor cache).sensor i = true →
      sensor i = true ∨ (i : Int) = enrollServerId env)
  ∧ (∀ i, (enrollNewFingerprint env sensor cache).cache i ≠ cache i →
      (i : Int) = enrollServerId env)

/-- C7: the enrollment identifier comes exclusively from the server —
offline, failed, or out-of-range identifier fetches abort the
enrollment cleanly before any fingerprint capture with no state change,
and the only sensor slot or cache entry an enrollment can touch is the
server-provided identifier. -/
theorem C7_server_id_authority (env : EnrollEnv) (sensor : Nat → Bool) (cache : Cache) :
    C7Prop env sensor cache := by
  unfold C7Prop enrollNewFingerprint
  by_cases hw : env.wifi = false
  · rw [hw]
    exact ⟨fun _ => ⟨rfl, rfl, rfl⟩, fun i hi => Or.inl hi, fun i hi => absurd rfl hi⟩
  · have hw2 : env.wifi = true := by
      cases h : env.wifi
      · exact absurd h hw
      · rfl
    rw [hw2]
    by_cases hid : enrollServerId env < 0 ∨ 128 ≤ enrollServerId env
    · rw [if_pos hid]
      exact ⟨fun _ => ⟨rfl, rfl, rfl⟩, fun i hi => Or.inl hi, fun i hi => absurd rfl hi⟩
    · rw [if_neg hid]
      push_neg at hid
      have hcast : ((enrollServerId env).toNat : Int) = enrollServerId env :=
        Int.toNat_of_nonneg hid.1
      refine ⟨fun h => ?_, ?_, ?_⟩
      · rcases h with h | h | h
        · exact absurd h (by decide)
        · exact absurd h (not_lt.mpr hid.1)
        · exact absurd h (not_le.mpr hid.2)
      · intro i
        split_ifs <;> intro hi <;>
          first
            | exact Or.inl hi
            | (by_cases hij : i = (enrollServerId env).toNat
               · exact Or.inr (by rw [hij]; exact hcast)
               · exact Or.inl (by simpa [upd, hij] using hi))
      · intro i
        split_ifs <;> intro hi <;>
          first
            | exact absurd rfl hi
            | (by_cases hij : i = (enrollServerId env).toNat
               · rw [hij]; exact hcast
               · exact absurd (by simp [upd, hij]) hi)

/-- Witness for C7: device offline — enrollment aborts with nothing
changed and no capture. -/
theorem C7_server_id_authority_witness :
    C7Prop (EnrollEnv.mk false 200 ['7'] 0 0 0 0 200 "x") (fun _ => false) emptyCache :=
  C7_server_id_authority (EnrollEnv.mk false 200 ['7'] 0 0 0 0 200 "x")
    (fun _ => false) emptyCache

/-! ## Roster synchronisation (`syncSensorWithServer`, `syncAndDisplayServerData`)

The roster fetch is an oracle: the HTTP status of `GET /api/SensorData`,
whether the body deserialised, and the decoded `(id, name)` array (ids
are C `int`s, so they may lie outside [0, 128) and are range-checked by
the loop). -/

/-- Result of one roster fetch. -/
structure RosterFetch where
  code : Nat
  parseOk : Bool
  entries : List (Int × String)

/-- The per-entry body of the roster loop: range-check the id, mark it
as present on the server, and update the cache entry. -/
def rosterStep (st : (Nat → Bool) × Cache) (e : Int × String) : (Nat → Bool) × Cache :=
  if 0 ≤ e.1 ∧ e.1 < 128 then
    (upd st.1 e.1.toNat true, upd st.2 e.1.toNat ⟨e.1.toNat, e.2⟩)
  else st

/-- The per-entry body of `syncAndDisplayServerData`'s loop (cache
update only). -/
def cacheStep (c : Cache) (e : Int × String) : Cache :=
  if 0 ≤ e.1 ∧ e.1 < 128 then upd c e.1.toNat ⟨e.1.toNat, e.2⟩ else c

/-- Does the fetched roster contain an in-range entry for identifier `i`? -/
def rosterHas (entries : List (Int × String)) (i : Nat) : Bool :=
  entries.any (fun e => decide (0 ≤ e.1) && decide (e.1 < 128) && decide (e.1.toNat = i))

/-- `syncSensorWithServer()`: build `serverHasID` (and refresh cache
entries) from the fetched roster when the fetch succeeded — on any
fetch or parse failure `serverHasID` stays all-false — then walk sensor
identifiers 0..127 and delete every template absent from `serverHasID`. -/
def syncSensorWithServer (wifi : Bool) (fetch : RosterFetch)
    (sensor : Nat → Bool) (cache : Cache) : (Nat → Bool) × Cache :=
  if !wifi then (sensor, cache)
  else
    let st :=
      if fetch.code = HTTP_CODE_OK ∧ fetch.parseOk = true then
        fetch.entries.foldl rosterStep ((fun _ => false), cache)
      else ((fun _ => false), cache)
    let sensor2 := (List.range 128).foldl
      (fun s i => if s i && !st.1 i then upd s i false else s) sensor
    (sensor2, st.2)

/-- `syncAndDisplayServerData()`: on HTTP 200 with a parseable body,
update the cache entry of every in-range fetched pair; on any fetch or
parse failure (or offline) leave the cache untouched. -/
def syncAndDisplayServerData (wifi : Bool) (fetch : RosterFetch) (cache : Cache) :
    Cache :=
  if !wifi then cache
  else if fetch.code = HTTP_CODE_OK then
    if fetch.parseOk then fetch.entries.foldl cacheStep cache
    else cache
  else cache

/-! Pointwise characterisations of the two roster loops. -/

theorem rosterFold_fst (entries : List (Int × String)) (st : (Nat → Bool) × Cache)
    (i : Nat) :
    (entries.foldl rosterStep st).1 i = (st.1 i || rosterHas entries i) := by
  induction entries generalizing st with
  | nil => simp [rosterHas]
  | cons e es ih =>
    simp only [List.foldl_cons, ih, rosterHas, List.any_cons]
    by_cases hr : 0 ≤ e.1 ∧ e.1 < 128
    · simp only [rosterStep, if_pos hr, upd]
      by_cases hie : i = e.1.toNat
      · simp [hie, hr.1, hr.2]
      · have : ¬ e.1.toNat = i := fun h => hie h.symm
        simp [hie, this]
    · rw [rosterStep, if_neg hr]
      have : (decide (0 ≤ e.1) && decide (e.1 < 128) && decide (e.1.toNat = i)) = false := by
        rcases Decidable.not_and_iff_or_not.mp hr with h | h <;> simp [h]
      rw [this]
      simp [rosterHas]

theorem cacheFold_not_mem (entries : List (Int × String)) (c : Cache) (i : Nat)
    (h : rosterHas entries i = false) :
    (entries.foldl cacheStep c) i = c i := by
  induction entries generalizing c with
  | nil => rfl
  | cons e es ih =>
    simp only [rosterHas, List.any_cons, Bool.or_eq_false_iff] at h
    simp only [List.foldl_cons]
    rw [ih _ (by simp [rosterHas, h.2])]
    by_cases hr : 0 ≤ e.1 ∧ e.1 < 128
    · have hne : ¬ i = e.1.toNat := by
        intro hie
        simp [hr.1, hr.2, hie] at h
      simp [cacheStep, if_pos hr, upd, hne]
    · simp [cacheStep, if_neg hr]

theorem cacheFold_cases (entries : List (Int × String)) (c : Cache) (i : Nat) :
    (entries.foldl cacheStep c) i = c i
    ∨ ∃ e ∈ entries, (0 ≤ e.1 ∧ e.1 < 128) ∧ e.1.toNat = i
        ∧ (entries.foldl cacheStep c) i = ⟨i, e.2⟩ := by
  induction entries generalizing c with
  | nil => exact Or.inl rfl
  | cons e es ih =>
    simp only [List.foldl_cons]
    rcases ih (cacheStep c e) with h | ⟨f, hf, hfr, hfi, hfe⟩
    · rw [h]
      by_cases hr : 0 ≤ e.1 ∧ e.1 < 128
      · by_cases hie : i = e.1.toNat
        · refine Or.inr ⟨e, List.mem_cons_self e es, hr, hie.symm, ?_⟩
          simp [cacheStep, if_pos hr, upd, hie]
        · refine Or.inl ?_
          simp [cacheStep, if_pos hr, upd, hie]
      · refine Or.inl ?_
        simp [cacheStep, if_neg hr]
    · exact Or.inr ⟨f, List.mem_cons_of_mem e hf, hfr, hfi, hfe⟩

/-- The overwrite half of the cache loop: an identifier that has an
in-range fetched pair ends up holding one of those pairs — whatever its
old cache value was, it is overwritten. -/
theorem cacheFold_overwrites (entries : List (Int × String)) (c : Cache) (i : Nat)
    (h : rosterHas entries i = true) :
    ∃ e ∈ entries, (0 ≤ e.1 ∧ e.1 < 128) ∧ e.1.toNat = i
      ∧ (entries.foldl cacheStep c) i = ⟨i, e.2⟩ := by
  induction entries generalizing c with
  | nil => cases h
  | cons e es ih =>
    simp only [List.foldl_cons]
    by_cases hes : rosterHas es i = true
    · obtain ⟨f, hf, hfr, hfi, hfe⟩ := ih (cacheStep c e) hes
      exact ⟨f, List.mem_cons_of_mem e hf, hfr, hfi, hfe⟩
    · have hes2 : rosterHas es i = false := by
        cases hx : rosterHas es i
        · rfl
        · exact absurd hx hes
      have hhead : (decide (0 ≤ e.1) && decide (e.1 < 128) && decide (e.1.toNat = i))
          = true := by
        have hes3 : (es.any fun f =>
            decide (0 ≤ f.1) && decide (f.1 < 128) && decide (f.1.toNat = i)) = false := hes2
        simp only [rosterHas, List.any_cons, hes3, Bool.or_false] at h
        exact h
      simp only [Bool.and_eq_true, decide_eq_true_eq] at hhead
      refine ⟨e, List.mem_cons_self e es, ⟨hhead.1.1, hhead.1.2⟩, hhead.2, ?_⟩
      rw [cacheFold_not_mem es _ i hes2]
      simp [cacheStep, if_pos (And.intro hhead.1.1 hhead.1.2), upd, hhead.2]

/-- The second component of the combined roster loop is the cache-only
loop. -/
theorem rosterFold_snd (entries : List (Int × String)) (st : (Nat → Bool) × Cache) :
    (entries.foldl rosterStep st).2 = entries.foldl cacheStep st.2 := by
  induction entries generalizing st with
  | nil => rfl
  | cons e es ih =>
    simp only [List.foldl_cons, ih]
    by_cases hr : 0 ≤ e.1 ∧ e.1 < 128
    · simp [rosterStep, cacheStep, if_pos hr]
    · simp [rosterStep, cacheStep, if_neg hr]

/-- Pointwise value of the orphan-deletion loop: an identifier below
128 that holds a template and is absent from `serverHasID` ends up
deleted, anything else is untouched. -/
theorem orphanFold_apply (hasId : Nat → Bool) (L : List Nat) (s : Nat → Bool) (i : Nat) :
    (L.foldl (fun s j => if s j && !hasId j then upd s j false else s) s) i
      = if i ∈ L ∧ s i = true ∧ hasId i = false then false else s i := by
  induction L generalizing s with
  | nil => simp
  | cons j L ih =>
    simp only [List.foldl_cons, ih, List.mem_cons]
    by_cases hij : i = j
    · subst hij
      by_cases hsi : s i = true
      · by_cases hh : hasId i = false
        · simp [hsi, hh, upd]
        · have hh2 : hasId i = true := by
            cases h : hasId i
            · exact absurd h hh
            · rfl
          simp [hsi, hh2, upd]
      · have hsi2 : s i = false := by
          cases h : s i
          · rfl
          · exact absurd h hsi
        simp [hsi2, upd]
    · by_cases hsj : (s j && !hasId j) = true
      · simp only [hsj, if_true, upd]
        have hne : ¬ i = j := hij
        simp [hne, hij]
      · simp only [hsj, Bool.false_eq_true, if_false]
        simp [hij]

/-- On a successful fetch, the post-sync sensor store pointwise: an
orphan (template present, absent from the roster, identifier < 128) is
deleted, everything else is untouched. -/
theorem syncSensor_success_fst (entries : List (Int × String)) (sensor : Nat → Bool)
    (cache : Cache) (i : Nat) :
    (syncSensorWithServer true ⟨HTTP_CODE_OK, true, entries⟩ sensor cache).1 i
      = if i < 128 ∧ sensor i = true ∧ rosterHas entries i = false then false
        else sensor i := by
  have h0 : (syncSensorWithServer true ⟨HTTP_CODE_OK, true, entries⟩ sensor cache).1 i
      = ((List.range 128).foldl
          (fun s j => if s j && !(entries.foldl rosterStep ((fun _ => false), cache)).1 j
                      then upd s j false else s) sensor) i := rfl
  rw [h0, orphanFold_apply]
  have h2 : (entries.foldl rosterStep ((fun _ => false), cache)).1 i
      = rosterHas entries i := by
    rw [rosterFold_fst]; simp
  by_cases hc : i < 128 ∧ sensor i = true ∧ rosterHas entries i = false
  · rw [if_pos ⟨List.mem_range.mpr hc.1, hc.2.1, by rw [h2]; exact hc.2.2⟩, if_pos hc]
  · rw [if_neg, if_neg hc]
    intro hcon
    exact hc ⟨List.mem_range.mp hcon.1, hcon.2.1, by rw [← h2]; exact hcon.2.2⟩

/-- On a successful fetch, the post-sync cache is the cache loop's
result. -/
theorem syncSensor_success_snd (entries : List (Int × String)) (sensor : Nat → Bool)
    (cache : Cache) :
    (syncSensorWithServer true ⟨HTTP_CODE_OK, true, entries⟩ sensor cache).2
      = entries.foldl cacheStep cache := by
  have h0 : (syncSensorWithServer true ⟨HTTP_CODE_OK, true, entries⟩ sensor cache).2
      = (entries.foldl rosterStep ((fun _ => false), cache)).2 := rfl
  rw [h0, rosterFold_snd]

/-- The conjunction of facts stated by claim C5 in general form: after
`syncSensorWithServer` with a successful fetch, every on-sensor
identifier below 128 absent from the roster is deleted, every
roster-listed identifier's sensor slot is untouched, and every cache
entry with no roster entry is untouched. -/
def C5Prop (entries : List (Int × String)) (sensor : Nat → Bool) (cache : Cache) : Prop :=
  (∀ i, i < 128 → sensor i = true → rosterHas entries i = false →
      (syncSensorWithServer true ⟨HTTP_CODE_OK, true, entries⟩ sensor cache).1 i = false)
  ∧ (∀ i, rosterHas entries i = true →
      (syncSensorWithServer true ⟨HTTP_CODE_OK, true, entries⟩ sensor cache).1 i = sensor i)
  ∧ (∀ i, rosterHas entries i = false →
      (syncSensorWithServer true ⟨HTTP_CODE_OK, true, entries⟩ sensor cache).2 i = cache i)

/-- C5: orphan reconciliation — with a successfully fetched roster,
every identifier present on the sensor but absent from the roster is
deleted from the sensor, roster-listed identifiers are left untouched,
and cache entries without a roster entry keep their value.  (The
concrete roster-`{5: Alice}` / sensor-`{5, 9}` scenario is the witness
below.) -/
theorem C5_orphan_cleanup (entries : List (Int × String)) (sensor : Nat → Bool)
    (cache : Cache) : C5Prop entries sensor cache := by
  refine ⟨?_, ?_, ?_⟩
  · intro i hlt hs hr
    rw [syncSensor_success_fst]
    rw [if_pos ⟨hlt, hs, hr⟩]
  · intro i hr
    rw [syncSensor_success_fst]
    rw [if_neg]
    intro hcon
    rw [hr] at hcon
    cases hcon.2.2
  · intro i hr
    rw [syncSensor_success_snd]
    exact cacheFold_not_mem entries cache i hr

/-- Witness for C5: the spec's concrete scenario — roster `{5: Alice}`,
sensor templates at `{5, 9}`: template 9 is deleted, template 5 stays,
and the cache maps 5 to `(5, Alice)`. -/
theorem C5_orphan_cleanup_witness :
    (9 < 128 ∧ (fun i => decide (i = 5) || decide (i = 9)) 9 = true
      ∧ rosterHas [((5 : Int), "Alice")] 9 = false)
    ∧ (syncSensorWithServer true ⟨HTTP_CODE_OK, true, [((5 : Int), "Alice")]⟩
        (fun i => decide (i = 5) || decide (i = 9)) emptyCache).1 9 = false
    ∧ (syncSensorWithServer true ⟨HTTP_CODE_OK, true, [((5 : Int), "Alice")]⟩
        (fun i => decide (i = 5) || decide (i = 9)) emptyCache).1 5 = true
    ∧ (syncSensorWithServer true ⟨HTTP_CODE_OK, true, [((5 : Int), "Alice")]⟩
        (fun i => decide (i = 5) || decide (i = 9)) emptyCache).2 5
        = ⟨5, "Alice"⟩ :=
  ⟨⟨by decide, by decide, by decide⟩,
   (C5_orphan_cleanup [((5 : Int), "Alice")] (fun i => decide (i = 5) || decide (i = 9))
      emptyCache).1 9 (by decide) (by decide) (by decide),
   by decide, by decide⟩

/-- C8: if the roster fetch inside `syncSensorWithServer` fails (HTTP
status other than 200, or an unparseable body), the orphan-deletion
loop runs against an all-false `serverHasID`, so every sensor template
at identifiers 0..127 is deleted. -/
theorem C8_failed_fetch_wipes_sensor (fetch : RosterFetch) (sensor : Nat → Bool)
    (cache : Cache)
    (hfail : fetch.code ≠ HTTP_CODE_OK ∨ fetch.parseOk = false) :
    ∀ i, i < 128 → (syncSensorWithServer true fetch sensor cache).1 i = false := by
  have hn : ¬(fetch.code = HTTP_CODE_OK ∧ fetch.parseOk = true) := by
    rcases hfail with h | h
    · exact fun hc => h hc.1
    · intro hc
      rw [h] at hc
      cases hc.2
  intro i hi
  have h0 : (syncSensorWithServer true fetch sensor cache).1 i
      = ((List.range 128).foldl
          (fun s j => if s j && !(fun _ => false) j then upd s j false else s) sensor) i := by
    simp only [syncSensorWithServer, Bool.not_true, Bool.false_eq_true, if_false,
      if_neg hn]
  rw [h0, orphanFold_apply]
  by_cases hs : sensor i = true
  · rw [if_pos ⟨List.mem_range.mpr hi, hs, rfl⟩]
  · rw [if_neg]
    · cases h : sensor i
      · rfl
      · exact absurd h hs
    · intro hcon
      exact hs hcon.2.1

/-- Witness for C8: server answers HTTP 500; the lone template at
identifier 9 is wiped. -/
theorem C8_failed_fetch_wipes_sensor_witness :
    ((500 : Nat) ≠ HTTP_CODE_OK ∨ (true : Bool) = false)
    ∧ (9 < 128
      ∧ (syncSensorWithServer true ⟨500, true, [((5 : Int), "Alice")]⟩
          (fun i => decide (i = 9)) emptyCache).1 9 = false) :=
  ⟨Or.inl (by decide),
   by decide,
   C8_failed_fetch_wipes_sensor ⟨500, true, [((5 : Int), "Alice")]⟩
     (fun i => decide (i = 9)) emptyCache (Or.inl (by decide)) 9 (by decide)⟩

/-- Modelled from the spec's words, for comparison with the code:
"Replace cache wholesale on success" — the cache that would result from
discarding every existing entry and populating only the fetched
in-range pairs. -/
def refreshRosterWholesale (entries : List (Int × String)) : Cache :=
  entries.foldl cacheStep emptyCache

/-- C6 counterexample: a successful roster refresh does NOT replace the
Identity Cache wholesale.  With cache entry 3 ↦ (3, Bob) and a
successful fetch whose only pair is (5, Alice), the code leaves
(3, Bob) in the cache, although identifier 3 has no fetched pair and
wholesale replacement would clear it. -/
theorem C6_counterexample :
    syncAndDisplayServerData true ⟨HTTP_CODE_OK, true, [((5 : Int), "Alice")]⟩
        (upd emptyCache 3 ⟨3, "Bob"⟩) 3 = ⟨3, "Bob"⟩
    ∧ rosterHas [((5 : Int), "Alice")] 3 = false
    ∧ refreshRosterWholesale [((5 : Int), "Alice")] 3 = emptyEntry
    ∧ syncAndDisplayServerData true ⟨HTTP_CODE_OK, true, [((5 : Int), "Alice")]⟩
        (upd emptyCache 3 ⟨3, "Bob"⟩) 3
      ≠ refreshRosterWholesale [((5 : Int), "Alice")] 3 := by
  refine ⟨by decide, by decide, by decide, by decide⟩

/-- The conjunction of facts stated by amended claim C6: any fetch or
parse failure leaves the cache entirely unchanged, and a successful
fetch merges the in-range fetched pairs into the cache — every
identifier without a fetched pair keeps its old entry, and every entry
after the refresh is either the old one or one of the fetched pairs. -/
def C6Prop (wifi : Bool) (fetch : RosterFetch) (cache : Cache) : Prop :=
  ((wifi = false ∨ fetch.code ≠ HTTP_CODE_OK ∨ fetch.parseOk = false) →
      syncAndDisplayServerData wifi fetch cache = cache)
  ∧ (∀ i, rosterHas fetch.entries i = false →
      syncAndDisplayServerData true ⟨HTTP_CODE_OK, true, fetch.entries⟩ cache i = cache i)
  ∧ (∀ i, syncAndDisplayServerData true ⟨HTTP_CODE_OK, true, fetch.entries⟩ cache i = cache i
      ∨ ∃ e ∈ fetch.entries, (0 ≤ e.1 ∧ e.1 < 128) ∧ e.1.toNat = i
          ∧ syncAndDisplayServerData true ⟨HTTP_CODE_OK, true, fetch.entries⟩ cache i
              = ⟨i, e.2⟩)
  ∧ (∀ i, rosterHas fetch.entries i = true →
      ∃ e ∈ fetch.entries, (0 ≤ e.1 ∧ e.1 < 128) ∧ e.1.toNat = i
        ∧ syncAndDisplayServerData true ⟨HTTP_CODE_OK, true, fetch.entries⟩ cache i
            = ⟨i, e.2⟩)

/-- C6 (amended): on fetch or parse failure the cache is left entirely
unchanged (never partially overwritten); on success the fetched
in-range pairs overwrite their cache entries — every identifier with an
in-range fetched pair ends up mapped to one of those pairs, whatever it
held before — and every other entry is left unchanged: a merge, not a
wholesale replacement. -/
theorem C6_roster_refresh_merges_cache (wifi : Bool) (fetch : RosterFetch)
    (cache : Cache) : C6Prop wifi fetch cache := by
  refine ⟨?_, ?_, ?_, ?_⟩
  · intro h
    rcases h with h | h | h
    · rw [h]
      rfl
    · cases hw : wifi
      · rfl
      · show (if fetch.code = HTTP_CODE_OK then _ else cache) = cache
        rw [if_neg h]
    · cases hw : wifi
      · rfl
      · show (if fetch.code = HTTP_CODE_OK then _ else cache) = cache
        by_cases hc : fetch.code = HTTP_CODE_OK
        · rw [if_pos hc]
          show (if fetch.parseOk = true then _ else cache) = cache
          rw [h]
          rfl
        · rw [if_neg hc]
  · intro i hr
    show (fetch.entries.foldl cacheStep cache) i = cache i
    exact cacheFold_not_mem fetch.entries cache i hr
  · intro i
    show (fetch.entries.foldl cacheStep cache) i = cache i ∨ _
    exact cacheFold_cases fetch.entries cache i
  · intro i hr
    have h := cacheFold_overwrites fetch.entries cache i hr
    exact h

/-- Witness for C6: against a cache holding a stale (5, Old) entry and
(3, Bob), the failure branch with HTTP 500 leaves the cache unchanged;
on the successful fetch of (5, Alice) the entry at 3 is untouched, the
entry at 5 is overwritten to a fetched pair, and indeed ends up
(5, Alice), no longer (5, Old). -/
theorem C6_roster_refresh_merges_cache_witness :
    (((true : Bool) = false ∨ (500 : Nat) ≠ HTTP_CODE_OK ∨ (true : Bool) = false)
      ∧ syncAndDisplayServerData true ⟨500, true, [((5 : Int), "Alice")]⟩
          (upd (upd emptyCache 3 ⟨3, "Bob"⟩) 5 ⟨5, "Old"⟩)
        = upd (upd emptyCache 3 ⟨3, "Bob"⟩) 5 ⟨5, "Old"⟩)
    ∧ (rosterHas [((5 : Int), "Alice")] 3 = false
      ∧ syncAndDisplayServerData true ⟨HTTP_CODE_OK, true, [((5 : Int), "Alice")]⟩
          (upd (upd emptyCache 3 ⟨3, "Bob"⟩) 5 ⟨5, "Old"⟩) 3
        = upd (upd emptyCache 3 ⟨3, "Bob"⟩) 5 ⟨5, "Old"⟩ 3)
    ∧ (rosterHas [((5 : Int), "Alice")] 5 = true
      ∧ ∃ e ∈ [((5 : Int), "Alice")], (0 ≤ e.1 ∧ e.1 < 128) ∧ e.1.toNat = 5
          ∧ syncAndDisplayServerData true ⟨HTTP_CODE_OK, true, [((5 : Int), "Alice")]⟩
              (upd (upd emptyCache 3 ⟨3, "Bob"⟩) 5 ⟨5, "Old"⟩) 5 = ⟨5, e.2⟩)
    ∧ syncAndDisplayServerData true ⟨HTTP_CODE_OK, true, [((5 : Int), "Alice")]⟩
        (upd (upd emptyCache 3 ⟨3, "Bob"⟩) 5 ⟨5, "Old"⟩) 5 = ⟨5, "Alice"⟩ :=
  ⟨⟨Or.inr (Or.inl (by decide)),
    (C6_roster_refresh_merges_cache true ⟨500, true, [((5 : Int), "Alice")]⟩
      (upd (upd emptyCache 3 ⟨3, "Bob"⟩) 5 ⟨5, "Old"⟩)).1 (Or.inr (Or.inl (by decide)))⟩,
   ⟨by decide,
    (C6_roster_refresh_merges_cache true ⟨HTTP_CODE_OK, true, [((5 : Int), "Alice")]⟩
      (upd (upd emptyCache 3 ⟨3, "Bob"⟩) 5 ⟨5, "Old"⟩)).2.1 3 (by decide)⟩,
   ⟨by decide,
    (C6_roster_refresh_merges_cache true ⟨HTTP_CODE_OK, true, [((5 : Int), "Alice")]⟩
      (upd (upd emptyCache 3 ⟨3, "Bob"⟩) 5 ⟨5, "Old"⟩)).2.2.2 5 (by decide)⟩,
   by decide⟩
